import Mathlib

/-!
Verification of the conversation/extraction core of the LLM-powered medical
chatbot (`chatbot.py`).  The Python source is shallowly embedded: pure string
manipulation is translated to executable Lean functions on `String`/`List Char`,
the Streamlit session state becomes an explicit `SessionState` record, and the
two external HTTP services (the OpenRouter LLM completion endpoint and the
RapidAPI diagnosis endpoint) are modelled as oracle functions supplied as
arguments, with `none` standing for every failure path of the HTTP layer.
-/

namespace MedChatbot

/-! ## Python string primitives

Executable models of the Python `str` operations the source uses:
`in` (substring test), `str.replace` (all non-overlapping occurrences,
left to right), `str.strip` (whitespace at both ends) and `str.title`.
-/

/-- Does `s` start with the pattern `pat`?  (Helper for substring search.) -/
def startsWithChars : List Char → List Char → Bool
  | _, [] => true
  | [], _ :: _ => false
  | c :: cs, d :: ds => c == d && startsWithChars cs ds

/-- Does `s` contain `pat` as a contiguous substring?  Model of Python
`pat in s`. -/
def containsSub (pat : List Char) : List Char → Bool
  | [] => pat.isEmpty
  | c :: cs => startsWithChars (c :: cs) pat || containsSub pat cs

/-- Model of Python `s in t` (substring containment) on `String`. -/
def pyContains (s pat : String) : Bool :=
  containsSub pat.toList s.toList

/-- Replace, left to right, every non-overlapping occurrence of `pat` by
`rep`, as Python `str.replace` does.  `fuel` bounds the recursion; each step
consumes at least one character, so `fuel = s.length` suffices. -/
def replaceAllAux (pat rep : List Char) : Nat → List Char → List Char
  | 0, s => s
  | _ + 1, [] => []
  | fuel + 1, c :: cs =>
    if !pat.isEmpty && startsWithChars (c :: cs) pat then
      rep ++ replaceAllAux pat rep fuel (List.drop pat.length (c :: cs))
    else
      c :: replaceAllAux pat rep fuel cs

/-- Model of Python `s.replace(pat, rep)` (all non-overlapping occurrences,
scanned left to right). -/
def pyReplace (s pat rep : String) : String :=
  String.mk (replaceAllAux pat.toList rep.toList s.toList.length s.toList)

/-- The ASCII whitespace characters removed by Python `str.strip()`. -/
def isPySpace (c : Char) : Bool :=
  c == ' ' || c == '\t' || c == '\n' || c == '\r' || c == '\x0b' || c == '\x0c'

/-- Model of Python `s.strip()`: drop whitespace at both ends. -/
def pyStrip (s : String) : String :=
  String.mk ((((s.toList.dropWhile isPySpace).reverse).dropWhile isPySpace).reverse)

/-- One pass of Python `str.title()`: an alphabetic character is upper-cased
when the previous character was not alphabetic and lower-cased otherwise.
The flag records whether the previous character was alphabetic. -/
def pyTitleAux : Bool → List Char → List Char
  | _, [] => []
  | prevAlpha, c :: cs =>
    let c2 := if c.isAlpha then (if prevAlpha then c.toLower else c.toUpper) else c
    c2 :: pyTitleAux c.isAlpha cs

/-- Model of Python `s.title()` for the ASCII strings this program feeds it. -/
def pyTitle (s : String) : String :=
  String.mk (pyTitleAux false s.toList)

/-- Model of Python `l[-n:]`: the last `n` elements (all of them when the
list is shorter than `n`). -/
def lastN (n : Nat) (l : List α) : List α :=
  l.drop (l.length - n)

/-! ## JSON values

The values Python `json.loads` produces: `None`, `bool`, `int`, `float`,
`str`, `list`, `dict`.  A float is kept as its source lexeme (no claim
inspects a float's numeric value). -/

inductive JValue where
  | jnull : JValue
  | jbool : Bool → JValue
  | jint : Int → JValue
  | jfloat : String → JValue
  | jstr : String → JValue
  | jarr : List JValue → JValue
  | jobj : List (String × JValue) → JValue

/-- First value bound to key `k` in an association list (Python dicts have
unique keys, maintained by `insertKV` below). -/
def dictLookup (d : List (String × JValue)) (k : String) : Option JValue :=
  match d with
  | [] => none
  | (k2, v) :: rest => if k2 == k then some v else dictLookup rest k

/-- Model of Python `d.get(k, default)`: the bound value when the key is
present (even when that value is `None`), the default otherwise. -/
def pyGet (d : List (String × JValue)) (k : String) (default : JValue) : JValue :=
  match dictLookup d k with
  | some v => v
  | none => default

/-- Insertion with Python-dict semantics: a repeated key overwrites the
value in place, keeping the original position. -/
def insertKV (d : List (String × JValue)) (k : String) (v : JValue) :
    List (String × JValue) :=
  match d with
  | [] => [(k, v)]
  | (k2, v2) :: rest =>
    if k2 == k then (k2, v) :: rest else (k2, v2) :: insertKV rest k v

/-- Python truthiness of a JSON value: `None`, `False`, `0`, `""`, `[]` and
an empty dict are falsy. -/
def pyTruthy : JValue → Bool
  | .jnull => false
  | .jbool b => b
  | .jint n => n != 0
  | .jfloat _ => true
  | .jstr s => !(s == "")
  | .jarr l => !l.isEmpty
  | .jobj l => !l.isEmpty

mutual

/-- Python `repr()` of a JSON value: like `str()` but with strings quoted.
A float prints as its source lexeme (Python prints the float value, which
agrees on canonical lexemes; no claim looks at a float rendering); quote
escaping inside nested strings is not modelled — the program never nests
containers in the fields it renders. -/
def pyRepr : JValue → String
  | .jnull => "None"
  | .jbool true => "True"
  | .jbool false => "False"
  | .jint n => toString n
  | .jfloat lex => lex
  | .jstr s => "'" ++ s ++ "'"
  | .jarr l => "[" ++ pyReprElems l ++ "]"
  | .jobj l => "\x7b" ++ pyReprMembers l ++ "\x7d"

/-- Comma-separated `repr` of list elements. -/
def pyReprElems : List JValue → String
  | [] => ""
  | [v] => pyRepr v
  | v :: w :: vs => pyRepr v ++ ", " ++ pyReprElems (w :: vs)

/-- Comma-separated `repr` of dict members. -/
def pyReprMembers : List (String × JValue) → String
  | [] => ""
  | [(k, v)] => "'" ++ k ++ "': " ++ pyRepr v
  | (k, v) :: kv :: kvs =>
    "'" ++ k ++ "': " ++ pyRepr v ++ ", " ++ pyReprMembers (kv :: kvs)

end

/-- Python `str()` of a JSON value: a string prints verbatim, everything
else as its `repr` (which is what Python does for these types). -/
def pyStr : JValue → String
  | .jstr s => s
  | v => pyRepr v

/-! ## Model of Python `json.loads`

A recursive-descent parser for the grammar Python `json.loads` accepts in
its default configuration: strict JSON plus the `NaN` / `Infinity` /
`-Infinity` literals.  Container parsing carries a fuel argument (amply
bounded by the input length); every other step recurses structurally. -/

/-- The whitespace characters the Python `json` scanner skips. -/
def skipJsonWs : List Char → List Char :=
  List.dropWhile (fun c => c == ' ' || c == '\t' || c == '\n' || c == '\r')

/-- Value of a hexadecimal digit. -/
def hexVal (c : Char) : Option Nat :=
  if '0' ≤ c && c ≤ '9' then some (c.toNat - 48)
  else if 'a' ≤ c && c ≤ 'f' then some (c.toNat - 87)
  else if 'A' ≤ c && c ≤ 'F' then some (c.toNat - 55)
  else none

/-- The single-character JSON escapes. -/
def escChar (e : Char) : Option Char :=
  if e == '"' then some '"'
  else if e == '\\' then some '\\'
  else if e == '/' then some '/'
  else if e == 'b' then some '\x08'
  else if e == 'f' then some '\x0c'
  else if e == 'n' then some '\n'
  else if e == 'r' then some '\r'
  else if e == 't' then some '\t'
  else none

/-- Parse the body of a JSON string literal (the opening quote already
consumed), returning the decoded characters and the input after the closing
quote.  Strict mode: raw control characters and unknown escapes are
rejected.  `\u` escapes decode the code point (surrogate-pair combining not
modelled; `Char.ofNat` maps invalid code points to `\0`). -/
def parseStringBody : List Char → Option (List Char × List Char)
  | [] => none
  | '"' :: cs => some ([], cs)
  | '\\' :: e :: cs =>
    if e == 'u' then
      match cs with
      | h1 :: h2 :: h3 :: h4 :: cs2 =>
        match hexVal h1, hexVal h2, hexVal h3, hexVal h4 with
        | some a, some b, some c, some d =>
          match parseStringBody cs2 with
          | some (content, rest) =>
            some (Char.ofNat (((a * 16 + b) * 16 + c) * 16 + d) :: content, rest)
          | none => none
        | _, _, _, _ => none
      | _ => none
    else
      match escChar e with
      | some ch =>
        match parseStringBody cs with
        | some (content, rest) => some (ch :: content, rest)
        | none => none
      | none => none
  | c :: cs =>
    if c.toNat < 32 then none
    else
      match parseStringBody cs with
      | some (content, rest) => some (c :: content, rest)
      | none => none

/-- Digits of a decimal literal as a `Nat`. -/
def natOfDigits (ds : List Char) : Nat :=
  ds.foldl (fun acc c => acc * 10 + (c.toNat - 48)) 0

/-- Parse an optional exponent part.  `some ([], cs)` means no exponent is
present; a present but malformed exponent fails (Python would stop the
number before the `e` and then fail on it as a stray token, so both models
reject the whole document). -/
def parseExp (cs : List Char) : Option (List Char × List Char) :=
  match cs with
  | [] => some ([], [])
  | e :: r =>
    if e == 'e' || e == 'E' then
      let (sgn, r2) : List Char × List Char :=
        match r with
        | '+' :: r2 => (['+'], r2)
        | '-' :: r2 => (['-'], r2)
        | _ => ([], r)
      let ds := r2.takeWhile Char.isDigit
      if ds.isEmpty then none
      else some (e :: (sgn ++ ds), r2.dropWhile Char.isDigit)
    else some ([], cs)

/-- Parse a JSON number: `-?(0|[1-9][0-9]*)(\.[0-9]+)?([eE][+-]?[0-9]+)?`.
Without fraction and exponent Python produces an `int`; otherwise a `float`,
kept here as its lexeme. -/
def parseNumberLex (cs : List Char) : Option (JValue × List Char) :=
  let (negChars, cs1) : List Char × List Char :=
    match cs with
    | '-' :: r => (['-'], r)
    | _ => ([], cs)
  let ipart := cs1.takeWhile Char.isDigit
  let cs2 := cs1.dropWhile Char.isDigit
  if ipart.isEmpty then none
  else if 1 < ipart.length && ipart.headD '0' == '0' then none
  else
    match cs2 with
    | '.' :: r =>
      let fpart := r.takeWhile Char.isDigit
      let cs3 := r.dropWhile Char.isDigit
      if fpart.isEmpty then none
      else
        match parseExp cs3 with
        | none => none
        | some (echars, cs4) =>
          some (.jfloat (String.mk (negChars ++ ipart ++ '.' :: fpart ++ echars)), cs4)
    | _ =>
      match parseExp cs2 with
      | none => none
      | some ([], cs3) =>
        some (.jint (if negChars.isEmpty then (natOfDigits ipart : Int)
                     else -(natOfDigits ipart : Int)), cs3)
      | some (echars, cs3) =>
        some (.jfloat (String.mk (negChars ++ ipart ++ echars)), cs3)

mutual

/-- Parse one JSON value (leading whitespace allowed), returning it and the
rest of the input. -/
def parseValue : Nat → List Char → Option (JValue × List Char)
  | 0, _ => none
  | fuel + 1, cs =>
    match skipJsonWs cs with
    | '"' :: r =>
      match parseStringBody r with
      | some (content, rest) => some (.jstr (String.mk content), rest)
      | none => none
    | '\x7b' :: r => parseObjectBody fuel r
    | '[' :: r => parseArrayBody fuel r
    | 't' :: 'r' :: 'u' :: 'e' :: r => some (.jbool true, r)
    | 'f' :: 'a' :: 'l' :: 's' :: 'e' :: r => some (.jbool false, r)
    | 'n' :: 'u' :: 'l' :: 'l' :: r => some (.jnull, r)
    | 'N' :: 'a' :: 'N' :: r => some (.jfloat "nan", r)
    | 'I' :: 'n' :: 'f' :: 'i' :: 'n' :: 'i' :: 't' :: 'y' :: r =>
      some (.jfloat "inf", r)
    | '-' :: 'I' :: 'n' :: 'f' :: 'i' :: 'n' :: 'i' :: 't' :: 'y' :: r =>
      some (.jfloat "-inf", r)
    | cs2 => parseNumberLex cs2

/-- Parse an array body (the `[` already consumed). -/
def parseArrayBody : Nat → List Char → Option (JValue × List Char)
  | 0, _ => none
  | fuel + 1, cs =>
    match skipJsonWs cs with
    | ']' :: r => some (.jarr [], r)
    | cs2 => parseElems fuel cs2 []

/-- Parse the elements of a non-empty array. -/
def parseElems : Nat → List Char → List JValue → Option (JValue × List Char)
  | 0, _, _ => none
  | fuel + 1, cs, acc =>
    match parseValue fuel cs with
    | none => none
    | some (v, rest) =>
      match skipJsonWs rest with
      | ',' :: r2 => parseElems fuel r2 (acc ++ [v])
      | ']' :: r2 => some (.jarr (acc ++ [v]), r2)
      | _ => none

/-- Parse an object body (the `{` already consumed). -/
def parseObjectBody : Nat → List Char → Option (JValue × List Char)
  | 0, _ => none
  | fuel + 1, cs =>
    match skipJsonWs cs with
    | '\x7d' :: r => some (.jobj [], r)
    | cs2 => parseMembers fuel cs2 []

/-- Parse the members of a non-empty object; a repeated key overwrites its
earlier value, as a Python dict does. -/
def parseMembers : Nat → List Char → List (String × JValue) →
    Option (JValue × List Char)
  | 0, _, _ => none
  | fuel + 1, cs, acc =>
    match skipJsonWs cs with
    | '"' :: r =>
      match parseStringBody r with
      | none => none
      | some (kchars, rest) =>
        match skipJsonWs rest with
        | ':' :: r2 =>
          match parseValue fuel r2 with
          | none => none
          | some (v, rest2) =>
            match skipJsonWs rest2 with
            | ',' :: r3 => parseMembers fuel r3 (insertKV acc (String.mk kchars) v)
            | '\x7d' :: r3 => some (.jobj (insertKV acc (String.mk kchars) v), r3)
            | _ => none
        | _ => none
    | _ => none

end

/-- Model of Python `json.loads`: parse one document and require only
whitespace after it.  The fuel `4 * length + 4` amply covers the at most
three fuel decrements spent per consumed character. -/
def json_loads (s : String) : Option JValue :=
  let cs := s.toList
  match parseValue (4 * cs.length + 4) cs with
  | some (v, rest) => if (skipJsonWs rest).isEmpty then some v else none
  | none => none

/-- Model of `re.search(r'\x7b.*\x7d', response, re.DOTALL)` followed by
`.group()`: with a greedy `.*` that may cross newlines, the leftmost-longest
match runs from the first `\x7b` of the string to its last `\x7d`, and a
match exists exactly when some `\x7d` occurs after the first `\x7b`. -/
def extractJsonSubstring (s : String) : Option String :=
  let cs := s.toList
  match cs.findIdx? (· == '\x7b') with
  | none => none
  | some i =>
    match cs.reverse.findIdx? (· == '\x7d') with
    | none => none
    | some k =>
      let j := cs.length - 1 - k
      if i < j then some (String.mk ((cs.drop i).take (j - i + 1))) else none

/-! ## Model of Python `json.dumps(v, indent=2)`

Used only to build prompt text (no claim inspects the prompt contents).
`ensure_ascii` escaping of non-ASCII characters is not modelled. -/

/-- Hexadecimal digit character. -/
def hexDigit (n : Nat) : Char :=
  if n < 10 then Char.ofNat (48 + n) else Char.ofNat (87 + n)

/-- JSON string escaping as `json.dumps` performs it for ASCII input. -/
def escapeJsonChars : List Char → List Char
  | [] => []
  | c :: cs =>
    (if c == '"' then ['\\', '"']
     else if c == '\\' then ['\\', '\\']
     else if c == '\n' then ['\\', 'n']
     else if c == '\r' then ['\\', 'r']
     else if c == '\t' then ['\\', 't']
     else if c.toNat < 32 then
       ['\\', 'u', '0', '0', hexDigit (c.toNat / 16), hexDigit (c.toNat % 16)]
     else [c]) ++ escapeJsonChars cs

/-- A quoted, escaped JSON string literal. -/
def jquote (s : String) : String :=
  "\"" ++ String.mk (escapeJsonChars s.toList) ++ "\""

/-- Indentation prefix at nesting `level` for `indent=2`. -/
def indentStr (level : Nat) : String :=
  String.mk (List.replicate (2 * level) ' ')

mutual

/-- Serialize a value at nesting `level`, `indent=2` style. -/
def jdumpsAux : Nat → JValue → String
  | _, .jnull => "null"
  | _, .jbool true => "true"
  | _, .jbool false => "false"
  | _, .jint n => toString n
  | _, .jfloat lex => lex
  | _, .jstr s => jquote s
  | _, .jarr [] => "[]"
  | level, .jarr (v :: vs) =>
    "[\n" ++ jdumpsElems (level + 1) (v :: vs) ++ "\n" ++ indentStr level ++ "]"
  | _, .jobj [] => "\x7b\x7d"
  | level, .jobj (kv :: kvs) =>
    "\x7b\n" ++ jdumpsMembers (level + 1) (kv :: kvs) ++ "\n" ++
      indentStr level ++ "\x7d"

/-- Serialize array elements, one per line. -/
def jdumpsElems : Nat → List JValue → String
  | _, [] => ""
  | level, [v] => indentStr level ++ jdumpsAux level v
  | level, v :: w :: vs =>
    indentStr level ++ jdumpsAux level v ++ ",\n" ++ jdumpsElems level (w :: vs)

/-- Serialize object members, one per line. -/
def jdumpsMembers : Nat → List (String × JValue) → String
  | _, [] => ""
  | level, [(k, v)] => indentStr level ++ jquote k ++ ": " ++ jdumpsAux level v
  | level, (k, v) :: kv :: kvs =>
    indentStr level ++ jquote k ++ ": " ++ jdumpsAux level v ++ ",\n" ++
      jdumpsMembers level (kv :: kvs)

end

/-- `json.dumps(v, indent=2)`. -/
def jdumpsIndent2 (v : JValue) : String :=
  jdumpsAux 0 v

/-! ## Data model

A chat turn (`{'type': ..., 'message': ..., 'timestamp': ...}` in the
source), the OpenRouter message dicts (`{"role": ..., "content": ...}`),
and the Streamlit session state variables that `init_session_state`
creates.  The timestamp is optional so that `_calculate_session_duration`'s
`'timestamp' in msg` membership test can be modelled. -/

structure Turn where
  ttype : String
  message : String
  timestamp : Option String
deriving Repr, DecidableEq

structure ApiMessage where
  role : String
  content : String
deriving Repr, DecidableEq

structure SessionState where
  conversation_history : List Turn
  extracted_data : List (String × JValue)
  consultation_active : Bool
  assessment_ready : Bool

/-- The session state `init_session_state` creates on first load (and the
state after `Start New Consultation` deletes every key and the next rerun
re-initializes them). -/
def initialState : SessionState :=
  { conversation_history := []
    extracted_data := []
    consultation_active := false
    assessment_ready := false }

/-- Full session reset (`keys_to_clear` deletion followed by
re-initialization). -/
def resetSession (_ : SessionState) : SessionState :=
  initialState

/-! ## Prompt and message constants from the source -/

/-- The interview system prompt (`self.system_prompt`). -/
def system_prompt : String :=
  String.intercalate "\n"
    [ "You are a professional medical assistant AI helping patients gather their health information for medical assessment. Your role is to:"
    , ""
    , "1. Conduct a natural, conversational interview to collect essential medical information"
    , "2. Ask relevant follow-up questions based on user responses"
    , "3. Show empathy and understanding while maintaining professionalism"
    , "4. Extract key medical details: age, symptoms, pain levels, duration, medical history, medications, allergies"
    , "5. Identify emergency situations and recommend immediate medical attention when needed"
    , "6. Keep responses concise but thorough (2-3 sentences max per response)"
    , "7. Never provide definitive diagnoses - only gather information for proper medical evaluation"
    , ""
    , "Essential information to collect:"
    , "- Basic demographics (age, gender if relevant)"
    , "- Current symptoms and their severity/duration"
    , "- Pain levels (1-10 scale)"
    , "- Medical history and chronic conditions"
    , "- Current medications and allergies"
    , "- Recent changes in health"
    , "- Emergency red flags"
    , ""
    , "When you have sufficient information, indicate that you're ready to provide preliminary assessment by saying \"ASSESSMENT_READY\" at the end of your response."
    , ""
    , "Emergency symptoms requiring immediate attention:"
    , "- Chest pain, shortness of breath"
    , "- Severe headache with neck stiffness"
    , "- Loss of consciousness, confusion"
    , "- Severe bleeding, trauma"
    , "- Signs of stroke or heart attack"
    , ""
    , "Always maintain a caring, professional tone and remind users this is preliminary screening, not medical diagnosis." ]

/-- The ready marker scanned for in LLM replies. -/
def assessmentMarker : String := "ASSESSMENT_READY"

/-- The fixed opening assistant message appended when a consultation
starts (`initial_message` in `main`). -/
def initial_message : String :=
  "Hello! I'm your AI health assistant. I'm here to help gather information about your health concerns in a natural, conversational way. What brings you here today? Are you experiencing any symptoms or health issues you'd like to discuss?"

/-- The fixed apology turn appended when the Gateway call fails during the
interview. -/
def apology_message : String :=
  "I apologize, but I'm having trouble processing your message right now. Could you please try again?"

/-- The fixed fallback report of `generate_comprehensive_assessment`. -/
def assessment_fallback : String :=
  "Unable to generate assessment. Please consult a healthcare provider."

/-! ## LLM Gateway (`call_openrouter_api`)

The HTTP layer (`requests.post`) is an oracle `http` mapping the message
list and `max_tokens` to an optional status code and parsed JSON body;
`none` covers timeout, transport error and an unparsable body.  In the
claim theorems the whole Gateway is abstracted further as
`gw : List ApiMessage → Nat → Option String`, of which
`call_openrouter_api secretsKey sessionKey http` is an instance. -/

/-- Python `a or b` for two optional strings (`None` and `""` are falsy). -/
def pyOrOpt (a b : Option String) : Option String :=
  match a with
  | some s => if s == "" then b else some s
  | none => b

/-- Model of `call_openrouter_api`: resolve the key from secrets or the
session, return `None` when it is missing, otherwise relay the HTTP result,
extracting `choices[0].message.content` stripped from a 200 body; every
failure (non-200 status, exception, missing field) yields `None` via the
`except` handlers. -/
def call_openrouter_api (secretsKey sessionKey : Option String)
    (http : List ApiMessage → Nat → Option (Nat × JValue))
    (messages : List ApiMessage) (max_tokens : Nat) : Option String :=
  match pyOrOpt secretsKey sessionKey with
  | none => none
  | some api_key =>
    if api_key == "" then none
    else
      match http messages max_tokens with
      | some (status, body) =>
        if status == 200 then
          match body with
          | .jobj o =>
            match dictLookup o "choices" with
            | some (.jarr (.jobj co :: _)) =>
              match dictLookup co "message" with
              | some (.jobj mo) =>
                match dictLookup mo "content" with
                | some (.jstr content) => some (pyStrip content)
                | _ => none
              | _ => none
            | _ => none
          | _ => none
        else none
      | none => none

/-! ## Session Controller (`main`) -/

/-- The role string an entry of the conversation history is relayed
under (`"assistant" if entry['type'] == 'bot' else "user"`). -/
def turnRole (e : Turn) : String :=
  if e.ttype == "bot" then "assistant" else "user"

/-- The message list `get_llm_response` sends to the Gateway: the system
prompt, the last 10 entries of the conversation history, then the current
user message. -/
def get_llm_response_messages (conversation_history : List Turn)
    (user_message : String) : List ApiMessage :=
  let messages : List ApiMessage := [{ role := "system", content := system_prompt }]
  let recent_history := lastN 10 conversation_history
  let messages := messages ++
    recent_history.map (fun e => { role := turnRole e, content := e.message })
  messages ++ [{ role := "user", content := user_message }]

/-- `get_llm_response`: build the message window and call the Gateway with
the default `max_tokens` of 500. -/
def get_llm_response (gw : List ApiMessage → Nat → Option String)
    (conversation_history : List Turn) (user_message : String) : Option String :=
  gw (get_llm_response_messages conversation_history user_message) 500

/-- Starting a consultation (`Start AI Health Consultation` with a
configured key): activate the session and append the fixed opening
assistant turn. -/
def startConsultation (s : SessionState) (ts : String) : SessionState :=
  { s with
    consultation_active := true
    conversation_history := s.conversation_history ++
      [{ ttype := "bot", message := initial_message, timestamp := some ts }] }

/-- One interview step (`main`, submitted user input during an active
consultation): append the user turn, call the Gateway on the windowed
message list, and append one assistant turn — the reply with every marker
occurrence removed and the result stripped (setting `assessment_ready`)
when the marker occurs in the reply, the plain reply otherwise, or the
fixed apology when the call failed (`bot_response` `None` or empty).
`tsUser`/`tsBot` stand for the two `datetime.now().isoformat()` calls. -/
def interviewStep (s : SessionState) (user_input : String)
    (gw : List ApiMessage → Nat → Option String) (tsUser tsBot : String) :
    SessionState :=
  let s1 : SessionState :=
    { s with conversation_history := s.conversation_history ++
        [{ ttype := "user", message := user_input, timestamp := some tsUser }] }
  match get_llm_response gw s1.conversation_history user_input with
  | some bot_response =>
    if bot_response == "" then
      { s1 with conversation_history := s1.conversation_history ++
          [{ ttype := "bot", message := apology_message, timestamp := some tsBot }] }
    else
      if pyContains bot_response assessmentMarker then
        { s1 with
          conversation_history := s1.conversation_history ++
            [{ ttype := "bot"
               message := pyStrip (pyReplace bot_response assessmentMarker "")
               timestamp := some tsBot }]
          assessment_ready := true }
      else
        { s1 with conversation_history := s1.conversation_history ++
            [{ ttype := "bot", message := bot_response, timestamp := some tsBot }] }
  | none =>
    { s1 with conversation_history := s1.conversation_history ++
        [{ ttype := "bot", message := apology_message, timestamp := some tsBot }] }

/-- One user submission: the text, the Gateway in effect for this step and
the two turn timestamps. -/
structure Submission where
  user_input : String
  gw : List ApiMessage → Nat → Option String
  tsUser : String
  tsBot : String

/-- A sequence of interview steps. -/
def runSubmissions (s : SessionState) (subs : List Submission) : SessionState :=
  subs.foldl (fun st sub => interviewStep st sub.user_input sub.gw sub.tsUser sub.tsBot) s

/-! ## Extraction Engine (`extract_medical_data`) -/

/-- The extraction instruction (`extraction_prompt` f-string) embedding the
conversation text and the literal target schema. -/
def extraction_prompt (conversation_text : String) : String :=
  String.intercalate "\n"
    [ ""
    , "        Based on the following medical conversation, extract and structure the key medical information in JSON format."
    , "        Extract only information that was explicitly mentioned by the user."
    , ""
    , "        Conversation:"
    , "        " ++ conversation_text
    , ""
    , "        Please extract the following information in this JSON format:"
    , "        \x7b"
    , "            \"age\": null,"
    , "            \"gender\": null,"
    , "            \"symptoms\": [],"
    , "            \"symptom_duration\": null,"
    , "            \"pain_level\": null,"
    , "            \"chronic_conditions\": [],"
    , "            \"medications\": [],"
    , "            \"allergies\": [],"
    , "            \"has_fever\": null,"
    , "            \"emergency_symptoms\": false,"
    , "            \"additional_concerns\": []"
    , "        \x7d"
    , ""
    , "        Rules:"
    , "        - Only include information explicitly stated by the user"
    , "        - Use null for missing information"
    , "        - symptoms should be an array of strings"
    , "        - pain_level should be a number 1-10 or null"
    , "        - Set emergency_symptoms to true if any critical symptoms are mentioned"
    , "        - Return only valid JSON"
    , "        " ]

/-- The two messages `extract_medical_data` sends. -/
def extraction_messages (conversation_text : String) : List ApiMessage :=
  [ { role := "system"
      content := "You are a medical data extraction assistant. Extract information accurately and return only valid JSON." }
  , { role := "user", content := extraction_prompt conversation_text } ]

/-- `extract_medical_data`: call the Gateway with `max_tokens=800`, locate
the first-brace-to-last-brace substring of the reply, and parse it; every
failure (no reply, empty reply, no match, parse error) returns the empty
record — the `except` clause absorbs `json.JSONDecodeError` and every other
exception.  A valid document that starts with an opening brace is an
object, so the non-object case of a successful parse is unreachable; it is
kept total by also returning the empty record there. -/
def extract_medical_data (gw : List ApiMessage → Nat → Option String)
    (conversation_text : String) : List (String × JValue) :=
  match gw (extraction_messages conversation_text) 800 with
  | some response =>
    if response == "" then []
    else
      match extractJsonSubstring response with
      | some matched =>
        match json_loads matched with
        | some (.jobj kvs) => kvs
        | some _ => []
        | none => []
      | none => []
  | none => []

/-! ## Diagnosis Lookup (`get_ai_diagnosis`) -/

/-- The outgoing diagnosis request: the `X-RapidAPI-Key` header value and
the JSON payload fields. -/
structure DiagnosisRequest where
  api_key : String
  symptoms : JValue
  age : JValue
  gender : JValue
  medical_history : JValue

/-- The header key:
`st.secrets.get("RAPIDAPI_KEY") or st.session_state.get("rapidapi_key", "")`
— the secrets value when present and non-empty, else the session value,
else the empty string. -/
def rapidapiKey (secretsKey sessionKey : Option String) : String :=
  match secretsKey with
  | some s => if s == "" then sessionKey.getD "" else s
  | none => sessionKey.getD ""

/-- The request payload built at lines 213–218: `dict.get` defaults of 25
for a missing `age` and `"unknown"` for a missing `gender` (a key present
with value `null` is passed through as `null`). -/
def diagnosisRequest (secretsKey sessionKey : Option String)
    (extracted_data : List (String × JValue)) : DiagnosisRequest :=
  { api_key := rapidapiKey secretsKey sessionKey
    symptoms := pyGet extracted_data "symptoms" (.jarr [])
    age := pyGet extracted_data "age" (.jint 25)
    gender := pyGet extracted_data "gender" (.jstr "unknown")
    medical_history := pyGet extracted_data "chronic_conditions" (.jarr []) }

/-- `get_ai_diagnosis`: `None` immediately when the symptom value is falsy;
otherwise POST the request and return `response.json()` of a 200 response,
`None` for any other status.  The HTTP layer is the oracle `http`, mapping
the request to the status code and parsed JSON body of the response;
`none` stands for a timeout/transport error or an unparsable body, both
absorbed into `None` by the `except` handler.  In the `Option JValue`
result, `none` models the Python value `None`; since `json` parses the
body `null` to Python `None`, `return response.json()` on a 200 response
whose body is `null` returns `None` — indistinguishable from the absent
result — so a `jnull` body maps to `none` here. -/
def get_ai_diagnosis (secretsKey sessionKey : Option String)
    (http : DiagnosisRequest → Option (Nat × JValue))
    (extracted_data : List (String × JValue)) : Option JValue :=
  let symptoms := pyGet extracted_data "symptoms" (.jarr [])
  if !pyTruthy symptoms then none
  else
    match http (diagnosisRequest secretsKey sessionKey extracted_data) with
    | some (status, body) =>
      if status == 200 then
        match body with
        | .jnull => none
        | _ => some body
      else none
    | none => none

/-! ## Assessment Composer (`generate_comprehensive_assessment`) -/

/-- The assessment instruction (`assessment_prompt` f-string): the record
serialized with `json.dumps(·, indent=2)` and the diagnosis result, or
`"Not available"` when the diagnosis value is falsy. -/
def assessment_prompt (extracted_data : List (String × JValue))
    (ai_diagnosis : Option JValue) : String :=
  String.intercalate "\n"
    [ ""
    , "        Based on the following patient information, provide a comprehensive medical assessment and recommendations."
    , "        "
    , "        Patient Data: " ++ jdumpsIndent2 (.jobj extracted_data)
    , "        "
    , "        AI Diagnosis Results: " ++
        (match ai_diagnosis with
         | some d => if pyTruthy d then jdumpsIndent2 d else "Not available"
         | none => "Not available")
    , "        "
    , "        Please provide:"
    , "        1. Summary of presented symptoms and concerns"
    , "        2. Possible conditions or differential diagnoses (if AI diagnosis available, incorporate those findings)"
    , "        3. Urgency level (Low/Moderate/High/Emergency)"
    , "        4. Specific recommendations for next steps"
    , "        5. General health advice"
    , "        6. When to seek immediate medical attention"
    , "        "
    , "        Format your response with clear sections using markdown headers."
    , "        Be thorough but concise, and always emphasize that this is preliminary assessment requiring professional medical evaluation."
    , "        " ]

/-- The two messages `generate_comprehensive_assessment` sends. -/
def assessment_messages (extracted_data : List (String × JValue))
    (ai_diagnosis : Option JValue) : List ApiMessage :=
  [ { role := "system"
      content := "You are a medical assessment AI providing preliminary health evaluations. Always emphasize the need for professional medical consultation." }
  , { role := "user", content := assessment_prompt extracted_data ai_diagnosis } ]

/-- `generate_comprehensive_assessment`: obtain the (optional) diagnosis,
call the Gateway with `max_tokens=1200`, and return
`assessment or fallback` — the fallback whenever the reply is `None` or
empty.  The `except` branch returning an error string is unreachable here
because `call_openrouter_api` already absorbs every exception. -/
def generate_comprehensive_assessment (gw : List ApiMessage → Nat → Option String)
    (secretsKey sessionKey : Option String)
    (http : DiagnosisRequest → Option (Nat × JValue))
    (extracted_data : List (String × JValue)) : String :=
  let ai_diagnosis := get_ai_diagnosis secretsKey sessionKey http extracted_data
  match gw (assessment_messages extracted_data ai_diagnosis) 1200 with
  | some assessment => if assessment == "" then assessment_fallback else assessment
  | none => assessment_fallback

/-! ## Exporter: the CSV medical-data section (`save_conversation`) -/

/-- `key.replace('_', ' ').title()`. -/
def humanizeKey (k : String) : String :=
  pyTitle (pyReplace k "_" " ")

/-- One row of the `EXTRACTED MEDICAL DATA` CSV section (the loop body at
lines 318–327): a non-empty list joins its elements' `str()` with `"; "`,
an empty list renders `None reported`, a non-`None` scalar renders
`str(value)`, and `None` renders `Not specified`. -/
def medicalDataCsvRow (kv : String × JValue) : List String :=
  match kv.2 with
  | .jarr l =>
    if l.isEmpty then [humanizeKey kv.1, "None reported"]
    else [humanizeKey kv.1, String.intercalate "; " (l.map pyStr)]
  | .jnull => [humanizeKey kv.1, "Not specified"]
  | v => [humanizeKey kv.1, pyStr v]

/-- The `EXTRACTED MEDICAL DATA` rows of the CSV export: one row per record
field, in record order. -/
def extractedDataCsvRows (extracted_data : List (String × JValue)) :
    List (List String) :=
  extracted_data.map medicalDataCsvRow

/-! ## Session duration (`_calculate_session_duration`)

`datetime.fromisoformat` is modelled for the naive
`YYYY-MM-DD[THH:MM[:SS[.ffffff]]]` strings this program produces with
`datetime.now().isoformat()` (a space is also accepted as the separator);
the value is the timestamp in microseconds on the proleptic Gregorian
calendar, so that subtraction matches `timedelta`. -/

/-- Is `y` a Gregorian leap year? -/
def isLeapYear (y : Int) : Bool :=
  y % 4 == 0 && (y % 100 != 0 || y % 400 == 0)

/-- Days in a month. -/
def daysInMonth (y : Int) (m : Nat) : Nat :=
  if m == 2 then (if isLeapYear y then 29 else 28)
  else if m == 4 || m == 6 || m == 9 || m == 11 then 30
  else 31

/-- Days from 1970-01-01 to the given civil date (Howard Hinnant's
`days_from_civil`; with validated years 1–9999 every division argument is
non-negative). -/
def daysFromCivil (y : Int) (m d : Nat) : Int :=
  let y2 : Int := if m ≤ 2 then y - 1 else y
  let era : Int := (if 0 ≤ y2 then y2 else y2 - 399) / 400
  let yoe : Int := y2 - era * 400
  let doy : Int := (153 * (if 2 < m then (m : Int) - 3 else (m : Int) + 9) + 2) / 5 + (d : Int) - 1
  let doe : Int := yoe * 365 + yoe / 4 - yoe / 100 + doy
  era * 146097 + doe - 719468

/-- Parse exactly `n` digits into a number, returning the rest. -/
def parseDigitsAux : Nat → Nat → List Char → Option (Nat × List Char)
  | 0, acc, cs => some (acc, cs)
  | n + 1, acc, c :: cs =>
    if c.isDigit then parseDigitsAux n (acc * 10 + (c.toNat - 48)) cs else none
  | _ + 1, _, [] => none

/-- Parse the optional `HH:MM[:SS[.ffffff]]` part, returning
(hour, minute, second, microsecond). -/
def parseTimePart (cs : List Char) : Option (Nat × Nat × Nat × Nat) :=
  match parseDigitsAux 2 0 cs with
  | none => none
  | some (h, cs1) =>
    match cs1 with
    | ':' :: cs2 =>
      match parseDigitsAux 2 0 cs2 with
      | none => none
      | some (mi, cs3) =>
        match cs3 with
        | [] => if h < 24 && mi < 60 then some (h, mi, 0, 0) else none
        | ':' :: cs4 =>
          match parseDigitsAux 2 0 cs4 with
          | none => none
          | some (sec, cs5) =>
            match cs5 with
            | [] =>
              if h < 24 && mi < 60 && sec < 60 then some (h, mi, sec, 0) else none
            | '.' :: cs6 =>
              let frac := cs6.takeWhile Char.isDigit
              let rest := cs6.dropWhile Char.isDigit
              if rest.isEmpty && !frac.isEmpty && frac.length ≤ 6 &&
                  h < 24 && mi < 60 && sec < 60 then
                some (h, mi, sec, natOfDigits frac * 10 ^ (6 - frac.length))
              else none
            | _ => none
        | _ => none
    | _ => none

/-- `datetime.fromisoformat` for the formats above, as microseconds since
1970-01-01. -/
def fromisoformat (s : String) : Option Int :=
  let cs := s.toList
  match parseDigitsAux 4 0 cs with
  | none => none
  | some (y, cs1) =>
    match cs1 with
    | '-' :: cs2 =>
      match parseDigitsAux 2 0 cs2 with
      | none => none
      | some (mo, cs3) =>
        match cs3 with
        | '-' :: cs4 =>
          match parseDigitsAux 2 0 cs4 with
          | none => none
          | some (d, cs5) =>
            if 1 ≤ y && y ≤ 9999 && 1 ≤ mo && mo ≤ 12 && 1 ≤ d &&
                d ≤ daysInMonth (y : Int) mo then
              let timePart : Option (Nat × Nat × Nat × Nat) :=
                match cs5 with
                | [] => some (0, 0, 0, 0)
                | 'T' :: cs6 => parseTimePart cs6
                | ' ' :: cs6 => parseTimePart cs6
                | _ => none
              match timePart with
              | none => none
              | some (h, mi, sec, usec) =>
                some (((daysFromCivil (y : Int) mo d) * 86400 +
                       (h : Int) * 3600 + (mi : Int) * 60 + (sec : Int)) * 1000000 +
                      (usec : Int))
            else none
        | _ => none
    | _ => none

/-- Round half to even, as Python `round` does on the exact value: with
`f = ⌊q⌋` (floor division of numerator by denominator) and remainder `r`,
round down when the fractional part `r/den` is below one half, up when
above, and to the even neighbour at exactly one half. -/
def roundHalfEven (q : ℚ) : Int :=
  let f : Int := Int.fdiv q.num (q.den : Int)
  let r : Int := q.num - f * (q.den : Int)
  if 2 * r < (q.den : Int) then f
  else if (q.den : Int) < 2 * r then f + 1
  else if f % 2 == 0 then f else f + 1

/-- Python `round(x, 2)` on the exact rational value (the binary-float
representation error of `round` is not modelled). -/
def pyRound2 (q : ℚ) : ℚ :=
  (roundHalfEven (q * 100) : ℚ) / 100

/-- `_calculate_session_duration`: with at least two history entries whose
first and last both carry a parsable timestamp, the difference in minutes
rounded to two decimals; `0.0` otherwise (short history, missing key, or a
`ValueError` from `fromisoformat` absorbed by the bare `except`). -/
def calculate_session_duration (conversation_history : List Turn) : ℚ :=
  if 2 ≤ conversation_history.length then
    match conversation_history.head?, conversation_history.getLast? with
    | some first_msg, some last_msg =>
      match first_msg.timestamp, last_msg.timestamp with
      | some t1, some t2 =>
        match fromisoformat t1, fromisoformat t2 with
        | some start_time, some end_time =>
          pyRound2 ((((end_time - start_time : Int) : ℚ) / 1000000) / 60)
        | _, _ => 0
      | _, _ => 0
    | _, _ => 0
  else 0

/-! ## Claim theorems -/

/-- **C2.** For every input transcript string, `extract_medical_data`
returns a record and never raises (it is a total Lean function): when the
Gateway call fails, when the reply contains no first-brace-to-last-brace
substring, or when that substring is not syntactically valid JSON, it
returns the empty record; in particular `extract("")` with a reply carrying
no JSON object returns the empty record, as does extraction from any text
whose reply carries none. -/
theorem C2_extraction_degrades_to_empty :
    (∀ conversation_text : String,
        extract_medical_data (fun _ _ => none) conversation_text = [])
    ∧ (∀ (gw : List ApiMessage → Nat → Option String)
        (conversation_text reply : String),
        gw (extraction_messages conversation_text) 800 = some reply →
        extractJsonSubstring reply = none →
        extract_medical_data gw conversation_text = [])
    ∧ (∀ (gw : List ApiMessage → Nat → Option String)
        (conversation_text reply matched : String),
        gw (extraction_messages conversation_text) 800 = some reply →
        extractJsonSubstring reply = some matched →
        json_loads matched = none →
        extract_medical_data gw conversation_text = [])
    ∧ extract_medical_data
        (fun _ _ => some "I could not find any structured data to report.") "" = [] := by
  refine ⟨fun conversation_text => rfl, ?_, ?_, rfl⟩
  · intro gw conversation_text reply hgw hsub
    unfold extract_medical_data
    rw [hgw]
    by_cases hr : reply == ""
    · simp [hr]
    · simp [hr, hsub]
  · intro gw conversation_text reply matched hgw hsub hparse
    unfold extract_medical_data
    rw [hgw]
    by_cases hr : reply == ""
    · simp [hr]
    · simp [hr, hsub, hparse]

/-- Witness for C2: a Gateway reply without a JSON object yields the empty
record. -/
theorem C2_witness :
    extract_medical_data (fun _ _ => some "There is no structured data here.")
      "I have a headache" = [] :=
  C2_extraction_degrades_to_empty.2.1
    (fun _ _ => some "There is no structured data here.")
    "I have a headache" "There is no structured data here." rfl (by decide)

/-- **C4 counterexample.** The claim "if no diagnosis-API credential is
configured, the diagnosis lookup returns absent" is false on the code: with
no credential in secrets or session and a non-empty symptom list,
`get_ai_diagnosis` still issues the HTTP request (with an empty
`X-RapidAPI-Key` header); if that request comes back with status 200 and a
non-null parsable body, the parsed body is returned, not `None`. -/
theorem C4_counterexample :
    ¬ (get_ai_diagnosis none none
        (fun _ => some (200, JValue.jobj [("diagnosis", JValue.jstr "common cold")]))
        [("symptoms", JValue.jarr [JValue.jstr "fever"])] = none) := by
  intro h
  exact Option.noConfusion h

/-- **C4 (amended).** With no credential configured and a non-empty symptom
list, the request is still sent, carrying an empty API-key header; the
lookup returns absent when that request fails or is answered with a non-200
status, and also when a 200 body parses to `null` (Python `response.json()`
returns `None` there) — but not in general: the absence of a credential
does not by itself force an absent result, as the counterexample's 200
response with a non-null body shows. -/
theorem C4_no_credential_amended :
    ∀ (http : DiagnosisRequest → Option (Nat × JValue))
      (extracted_data : List (String × JValue)) (l : List JValue),
      dictLookup extracted_data "symptoms" = some (JValue.jarr l) → l ≠ [] →
      (diagnosisRequest none none extracted_data).api_key = ""
      ∧ (http (diagnosisRequest none none extracted_data) = none →
          get_ai_diagnosis none none http extracted_data = none)
      ∧ (∀ (status : Nat) (body : JValue),
          http (diagnosisRequest none none extracted_data) = some (status, body) →
          status ≠ 200 →
          get_ai_diagnosis none none http extracted_data = none)
      ∧ (http (diagnosisRequest none none extracted_data) = some (200, JValue.jnull) →
          get_ai_diagnosis none none http extracted_data = none) := by
  intro http extracted_data l hsym hne
  refine ⟨rfl, ?_, ?_, ?_⟩
  · intro hhttp
    unfold get_ai_diagnosis
    simp [pyGet, hsym, pyTruthy, hne, hhttp]
  · intro status body hhttp hstatus
    unfold get_ai_diagnosis
    simp [pyGet, hsym, pyTruthy, hne, hhttp, hstatus]
  · intro hhttp
    unfold get_ai_diagnosis
    simp [pyGet, hsym, pyTruthy, hne, hhttp]

/-- Witness for C4: no credential, symptoms `["fever"]` — the header key is
empty, and both an HTTP failure and a 200 response whose body is `null`
yield the absent result. -/
theorem C4_witness :
    (diagnosisRequest none none [("symptoms", JValue.jarr [JValue.jstr "fever"])]).api_key = ""
    ∧ get_ai_diagnosis none none (fun _ => none)
        [("symptoms", JValue.jarr [JValue.jstr "fever"])] = none
    ∧ get_ai_diagnosis none none (fun _ => some (200, JValue.jnull))
        [("symptoms", JValue.jarr [JValue.jstr "fever"])] = none :=
  have h1 := C4_no_credential_amended (fun _ => none)
    [("symptoms", JValue.jarr [JValue.jstr "fever"])] [JValue.jstr "fever"]
    rfl (by simp)
  have h2 := C4_no_credential_amended (fun _ => some (200, JValue.jnull))
    [("symptoms", JValue.jarr [JValue.jstr "fever"])] [JValue.jstr "fever"]
    rfl (by simp)
  ⟨h1.1, h1.2.1 rfl, h2.2.2.2 rfl⟩

/-- **C10.** The diagnosis request payload substitutes fabricated defaults
for absent demographic fields: a record without an `age` key is sent with
age 25 and one without a `gender` key with gender `"unknown"`, while a key
present with any value — `null` included — is passed through unchanged. -/
theorem C10_payload_defaults :
    ∀ (secretsKey sessionKey : Option String)
      (extracted_data : List (String × JValue)),
      (dictLookup extracted_data "age" = none →
        (diagnosisRequest secretsKey sessionKey extracted_data).age = JValue.jint 25)
      ∧ (∀ v, dictLookup extracted_data "age" = some v →
          (diagnosisRequest secretsKey sessionKey extracted_data).age = v)
      ∧ (dictLookup extracted_data "gender" = none →
          (diagnosisRequest secretsKey sessionKey extracted_data).gender
            = JValue.jstr "unknown")
      ∧ (∀ v, dictLookup extracted_data "gender" = some v →
          (diagnosisRequest secretsKey sessionKey extracted_data).gender = v) := by
  intro secretsKey sessionKey extracted_data
  refine ⟨fun h => ?_, fun v h => ?_, fun h => ?_, fun v h => ?_⟩ <;>
    simp [diagnosisRequest, pyGet, h]

/-- Witness for C10: a record with symptoms only gets age 25 and gender
`"unknown"`; a record whose `age` key holds `null` is sent as `null`. -/
theorem C10_witness :
    (diagnosisRequest none none [("symptoms", JValue.jarr [JValue.jstr "fever"])]).age
        = JValue.jint 25
    ∧ (diagnosisRequest none none [("symptoms", JValue.jarr [JValue.jstr "fever"])]).gender
        = JValue.jstr "unknown"
    ∧ (diagnosisRequest none none [("age", JValue.jnull)]).age = JValue.jnull :=
  ⟨(C10_payload_defaults none none [("symptoms", JValue.jarr [JValue.jstr "fever"])]).1 rfl,
   (C10_payload_defaults none none [("symptoms", JValue.jarr [JValue.jstr "fever"])]).2.2.1 rfl,
   (C10_payload_defaults none none [("age", JValue.jnull)]).2.1 JValue.jnull rfl⟩

/-- **C6.** The session-duration computation returns the difference between
the first and last turn's timestamps in minutes rounded to two decimals
when the history has at least two turns with parsable timestamps, and 0.0
when the history is shorter than two turns or a timestamp is missing or
unparsable; for first timestamp T0 and last timestamp T0+90s it returns
1.5. -/
theorem C6_session_duration :
    (∀ (h : List Turn) (first_msg last_msg : Turn) (t1 t2 : String) (a b : Int),
        2 ≤ h.length → h.head? = some first_msg → h.getLast? = some last_msg →
        first_msg.timestamp = some t1 → last_msg.timestamp = some t2 →
        fromisoformat t1 = some a → fromisoformat t2 = some b →
        calculate_session_duration h = pyRound2 ((((b - a : Int) : ℚ) / 1000000) / 60))
    ∧ (∀ h : List Turn, h.length < 2 → calculate_session_duration h = 0)
    ∧ (∀ (h : List Turn) (first_msg last_msg : Turn),
        h.head? = some first_msg → h.getLast? = some last_msg →
        (first_msg.timestamp = none ∨ last_msg.timestamp = none) →
        calculate_session_duration h = 0)
    ∧ (∀ (h : List Turn) (first_msg last_msg : Turn) (t1 t2 : String),
        h.head? = some first_msg → h.getLast? = some last_msg →
        first_msg.timestamp = some t1 → last_msg.timestamp = some t2 →
        (fromisoformat t1 = none ∨ fromisoformat t2 = none) →
        calculate_session_duration h = 0)
    ∧ calculate_session_duration
        [{ ttype := "bot", message := "m0", timestamp := some "2024-01-01T10:00:00" },
         { ttype := "user", message := "m1", timestamp := some "2024-01-01T10:01:30" }]
        = 3 / 2 := by
  have h1 : fromisoformat "2024-01-01T10:00:00" = some 1704103200000000 := by decide
  have h2 : fromisoformat "2024-01-01T10:01:30" = some 1704103290000000 := by decide
  refine ⟨?_, ?_, ?_, ?_, by
    simp only [calculate_session_duration]
    norm_num [h1, h2, pyRound2, roundHalfEven]⟩
  · intro h first_msg last_msg t1 t2 a b hlen hhead hlast ht1 ht2 ha hb
    simp [calculate_session_duration, hlen, hhead, hlast, ht1, ht2, ha, hb]
  · intro h hlen
    simp [calculate_session_duration, show ¬ 2 ≤ h.length by omega]
  · intro h first_msg last_msg hhead hlast hts
    unfold calculate_session_duration
    by_cases hlen : 2 ≤ h.length
    · rcases hts with hts | hts
      · cases hl : last_msg.timestamp <;> simp [hlen, hhead, hlast, hts, hl]
      · cases hf : first_msg.timestamp <;> simp [hlen, hhead, hlast, hts, hf]
    · simp [hlen]
  · intro h first_msg last_msg t1 t2 hhead hlast ht1 ht2 hiso
    unfold calculate_session_duration
    by_cases hlen : 2 ≤ h.length
    · rcases hiso with hiso | hiso
      · cases hl : fromisoformat t2 <;>
          simp [hlen, hhead, hlast, ht1, ht2, hiso, hl]
      · cases hf : fromisoformat t1 <;>
          simp [hlen, hhead, hlast, ht1, ht2, hiso, hf]
    · simp [hlen]

/-- Witness for C6: the two-turn history timestamped T0 and T0+90s,
through the general clause, evaluates to `round((90/60), 2)`. -/
theorem C6_witness :
    calculate_session_duration
      [{ ttype := "bot", message := "m0", timestamp := some "2024-01-01T10:00:00" },
       { ttype := "user", message := "m1", timestamp := some "2024-01-01T10:01:30" }]
      = pyRound2 ((((1704103290000000 - 1704103200000000 : Int) : ℚ) / 1000000) / 60) :=
  C6_session_duration.1
    [{ ttype := "bot", message := "m0", timestamp := some "2024-01-01T10:00:00" },
     { ttype := "user", message := "m1", timestamp := some "2024-01-01T10:01:30" }]
    _ _ "2024-01-01T10:00:00" "2024-01-01T10:01:30" 1704103200000000 1704103290000000
    (by decide) rfl rfl rfl rfl (by decide) (by decide)

/-- **C7.** The CSV export renders each list-valued field of the extracted
record as its elements joined by `"; "` when non-empty and as
`None reported` when empty, with the field name humanized (underscores to
spaces, title-cased); `{symptoms: ["fever"], medications: []}` yields the
rows `Symptoms / "fever"` and `Medications / "None reported"`. -/
theorem C7_csv_list_fields :
    (∀ (extracted_data : List (String × JValue)) (k : String) (l : List JValue),
        (k, JValue.jarr l) ∈ extracted_data → l ≠ [] →
        [humanizeKey k, String.intercalate "; " (l.map pyStr)]
          ∈ extractedDataCsvRows extracted_data)
    ∧ (∀ (extracted_data : List (String × JValue)) (k : String),
        (k, JValue.jarr []) ∈ extracted_data →
        [humanizeKey k, "None reported"] ∈ extractedDataCsvRows extracted_data)
    ∧ humanizeKey "pain_level" = "Pain Level"
    ∧ extractedDataCsvRows
        [("symptoms", JValue.jarr [JValue.jstr "fever"]),
         ("medications", JValue.jarr [])]
        = [["Symptoms", "fever"], ["Medications", "None reported"]] := by
  refine ⟨?_, ?_, by decide, rfl⟩
  · intro extracted_data k l hmem hne
    have hrow : medicalDataCsvRow (k, JValue.jarr l)
        = [humanizeKey k, String.intercalate "; " (l.map pyStr)] := by
      cases l with
      | nil => exact absurd rfl hne
      | cons a as => rfl
    exact hrow ▸ List.mem_map_of_mem medicalDataCsvRow hmem
  · intro extracted_data k hmem
    exact List.mem_map_of_mem medicalDataCsvRow hmem

/-- Witness for C7: the non-empty symptom list of the concrete record
produces the joined row. -/
theorem C7_witness :
    ["Symptoms", "fever"]
      ∈ extractedDataCsvRows
          [("symptoms", JValue.jarr [JValue.jstr "fever"]),
           ("medications", JValue.jarr [])] :=
  C7_csv_list_fields.1
    [("symptoms", JValue.jarr [JValue.jstr "fever"]), ("medications", JValue.jarr [])]
    "symptoms" [JValue.jstr "fever"] (by simp) (by simp)

/-- **C8.** For every extracted record and every diagnosis result (present
or absent), the assessment composer returns a non-empty report string; on
Gateway failure (no reply — every exception is absorbed into `none` by
`call_openrouter_api` — or an empty reply) it returns the fixed fallback
string directing the user to a healthcare provider instead of raising. -/
theorem C8_assessment_fallback :
    (∀ (gw : List ApiMessage → Nat → Option String)
        (secretsKey sessionKey : Option String)
        (http : DiagnosisRequest → Option (Nat × JValue))
        (extracted_data : List (String × JValue)),
        gw (assessment_messages extracted_data
              (get_ai_diagnosis secretsKey sessionKey http extracted_data)) 1200 = none →
        generate_comprehensive_assessment gw secretsKey sessionKey http extracted_data
          = assessment_fallback)
    ∧ (∀ (gw : List ApiMessage → Nat → Option String)
        (secretsKey sessionKey : Option String)
        (http : DiagnosisRequest → Option (Nat × JValue))
        (extracted_data : List (String × JValue)),
        generate_comprehensive_assessment gw secretsKey sessionKey http extracted_data
          ≠ "") := by
  constructor
  · intro gw secretsKey sessionKey http extracted_data hgw
    simp [generate_comprehensive_assessment, hgw]
  · intro gw secretsKey sessionKey http extracted_data
    simp only [generate_comprehensive_assessment]
    generalize gw (assessment_messages extracted_data
        (get_ai_diagnosis secretsKey sessionKey http extracted_data)) 1200 = r
    cases r with
    | none => decide
    | some assessment =>
      by_cases ha : assessment = ""
      · simp only [ha]
        decide
      · simp [ha]

/-- Witness for C8: total external failure still yields the fixed fallback
report. -/
theorem C8_witness :
    generate_comprehensive_assessment (fun _ _ => none) none none (fun _ => none) []
      = assessment_fallback :=
  C8_assessment_fallback.1 (fun _ _ => none) none none (fun _ => none) [] rfl

/-! ### Helper lemmas about the interview step -/

/-- An empty reply does not contain the (non-empty) ready marker. -/
theorem pyContains_empty_marker : pyContains "" assessmentMarker = false := by
  decide

/-- Every interview step appends exactly one user turn followed by exactly
one assistant turn. -/
theorem interviewStep_history_shape (s : SessionState) (u : String)
    (gw : List ApiMessage → Nat → Option String) (tu tb : String) :
    ∃ m, (interviewStep s u gw tu tb).conversation_history
        = s.conversation_history ++
          [{ ttype := "user", message := u, timestamp := some tu },
           { ttype := "bot", message := m, timestamp := some tb }] := by
  simp only [interviewStep, get_llm_response]
  split
  · rename_i bot_response heq
    split
    · exact ⟨apology_message, by simp⟩
    · split
      · exact ⟨pyStrip (pyReplace bot_response assessmentMarker ""), by simp⟩
      · exact ⟨bot_response, by simp⟩
  · exact ⟨apology_message, by simp⟩

/-- The interview step never changes `consultation_active`. -/
theorem interviewStep_active_eq (s : SessionState) (u : String)
    (gw : List ApiMessage → Nat → Option String) (tu tb : String) :
    (interviewStep s u gw tu tb).consultation_active = s.consultation_active := by
  simp only [interviewStep, get_llm_response]
  split
  · split
    · rfl
    · split <;> rfl
  · rfl

/-- The interview step never resets `assessment_ready` once it is set. -/
theorem interviewStep_ready_mono (s : SessionState) (u : String)
    (gw : List ApiMessage → Nat → Option String) (tu tb : String)
    (h : s.assessment_ready = true) :
    (interviewStep s u gw tu tb).assessment_ready = true := by
  simp only [interviewStep, get_llm_response]
  split
  · split
    · exact h
    · split
      · rfl
      · exact h
  · exact h

/-- A failed Gateway call (reply `none`) appends the user turn and the
fixed apology turn and changes nothing else. -/
theorem interviewStep_reply_none_eq (s : SessionState) (u : String)
    (gw : List ApiMessage → Nat → Option String) (tu tb : String)
    (h : gw (get_llm_response_messages (s.conversation_history ++
        [{ ttype := "user", message := u, timestamp := some tu }]) u) 500 = none) :
    interviewStep s u gw tu tb =
      { s with conversation_history := s.conversation_history ++
          [{ ttype := "user", message := u, timestamp := some tu },
           { ttype := "bot", message := apology_message, timestamp := some tb }] } := by
  simp only [interviewStep, get_llm_response]
  rw [h]
  simp

/-- A reply containing the marker appends the user turn and the assistant
turn holding the marker-stripped reply, and sets `assessment_ready`. -/
theorem interviewStep_reply_marker_eq (s : SessionState) (u r : String)
    (gw : List ApiMessage → Nat → Option String) (tu tb : String)
    (h : gw (get_llm_response_messages (s.conversation_history ++
        [{ ttype := "user", message := u, timestamp := some tu }]) u) 500 = some r)
    (hm : pyContains r assessmentMarker = true) :
    interviewStep s u gw tu tb =
      { s with
        conversation_history := s.conversation_history ++
          [{ ttype := "user", message := u, timestamp := some tu },
           { ttype := "bot", message := pyStrip (pyReplace r assessmentMarker ""),
             timestamp := some tb }]
        assessment_ready := true } := by
  have hr : ¬ r = "" := by
    intro he
    rw [he, pyContains_empty_marker] at hm
    exact Bool.noConfusion hm
  simp only [interviewStep, get_llm_response]
  rw [h]
  simp [hr, hm]

/-- **C1 counterexample.** The claim includes "no stored assistant turn
ever contains the marker", but stripping is a single left-to-right
`str.replace` pass: when the reply is `"ASSESSMENT_ASSESSMENT_READYREADY"`,
removing its one marker occurrence concatenates the surrounding fragments
into a fresh `"ASSESSMENT_READY"`, which is stored and displayed. -/
theorem C1_counterexample :
    (((interviewStep (startConsultation initialState "t0") "hello"
          (fun _ _ => some "ASSESSMENT_ASSESSMENT_READYREADY") "t1" "t2").conversation_history.map
        Turn.message).getLastD "" = "ASSESSMENT_READY")
    ∧ pyContains
        (((interviewStep (startConsultation initialState "t0") "hello"
              (fun _ _ => some "ASSESSMENT_ASSESSMENT_READYREADY") "t1" "t2").conversation_history.map
            Turn.message).getLastD "")
        assessmentMarker = true := by
  constructor
  · rfl
  · decide

/-- **C1 (amended).** For every interview step whose LLM reply contains the
ready marker, `assessment_ready` transitions from false to true, and the
stored assistant turn is the reply with all non-overlapping occurrences of
the marker removed in one left-to-right pass and the result
whitespace-stripped (this removal can itself reassemble the marker from
fragments, so a stored turn may still contain it); `assessment_ready`
never reverts from true to false on any step — only a full session reset
clears it. -/
theorem C1_marker_transition_amended :
    (∀ (s : SessionState) (u r tu tb : String),
        s.assessment_ready = false →
        pyContains r assessmentMarker = true →
        (interviewStep s u (fun _ _ => some r) tu tb).assessment_ready = true
        ∧ (interviewStep s u (fun _ _ => some r) tu tb).conversation_history
            = s.conversation_history ++
              [{ ttype := "user", message := u, timestamp := some tu },
               { ttype := "bot", message := pyStrip (pyReplace r assessmentMarker ""),
                 timestamp := some tb }])
    ∧ (∀ (s : SessionState) (u : String)
        (gw : List ApiMessage → Nat → Option String) (tu tb : String),
        s.assessment_ready = true →
        (interviewStep s u gw tu tb).assessment_ready = true)
    ∧ (∀ (s : SessionState) (u : String)
        (gw : List ApiMessage → Nat → Option String) (tu tb : String),
        (interviewStep s u gw tu tb).assessment_ready = false →
        s.assessment_ready = false)
    ∧ (∀ s : SessionState, (resetSession s).assessment_ready = false) := by
  refine ⟨?_, interviewStep_ready_mono, ?_, fun _ => rfl⟩
  · intro s u r tu tb _ hm
    have he := interviewStep_reply_marker_eq s u r (fun _ _ => some r) tu tb rfl hm
    rw [he]
    exact ⟨rfl, rfl⟩
  · intro s u gw tu tb h
    by_cases hb : s.assessment_ready = true
    · rw [interviewStep_ready_mono s u gw tu tb hb] at h
      exact Bool.noConfusion h
    · exact Bool.not_eq_true _ ▸ hb

/-- Witness for C1: a reply ending in the marker sets the flag and stores
the stripped text. -/
theorem C1_witness :
    (interviewStep (startConsultation initialState "t0") "ok"
        (fun _ _ => some "Thank you. ASSESSMENT_READY") "t1" "t2").assessment_ready = true
    ∧ (interviewStep (startConsultation initialState "t0") "ok"
        (fun _ _ => some "Thank you. ASSESSMENT_READY") "t1" "t2").conversation_history
      = (startConsultation initialState "t0").conversation_history ++
        [{ ttype := "user", message := "ok", timestamp := some "t1" },
         { ttype := "bot",
           message := pyStrip (pyReplace "Thank you. ASSESSMENT_READY" assessmentMarker ""),
           timestamp := some "t2" }] :=
  C1_marker_transition_amended.1 (startConsultation initialState "t0") "ok"
    "Thank you. ASSESSMENT_READY" "t1" "t2" rfl (by decide)

/-- **C3.** For every user message submitted during an active interview
(`consultation_active` true, `assessment_ready` false), a failed Gateway
call (no reply) appends the fixed apology assistant turn, the session stays
in the interviewing state, and no exception escapes the step (the model is
a total function; every exception path of `call_openrouter_api` is already
absorbed into the `none` reply). -/
theorem C3_gateway_failure_absorbed :
    ∀ (s : SessionState) (u : String)
      (gw : List ApiMessage → Nat → Option String) (tu tb : String),
      gw (get_llm_response_messages (s.conversation_history ++
          [{ ttype := "user", message := u, timestamp := some tu }]) u) 500 = none →
      s.consultation_active = true →
      s.assessment_ready = false →
      (interviewStep s u gw tu tb).conversation_history
          = s.conversation_history ++
            [{ ttype := "user", message := u, timestamp := some tu },
             { ttype := "bot", message := apology_message, timestamp := some tb }]
      ∧ (interviewStep s u gw tu tb).consultation_active = true
      ∧ (interviewStep s u gw tu tb).assessment_ready = false := by
  intro s u gw tu tb hgw hactive hready
  have he := interviewStep_reply_none_eq s u gw tu tb hgw
  rw [he]
  exact ⟨rfl, hactive, hready⟩

/-- Witness for C3: in a freshly started session, a failed Gateway call
stores the apology and keeps the session interviewing. -/
theorem C3_witness :
    (interviewStep (startConsultation initialState "t0") "hi"
        (fun _ _ => none) "t1" "t2").conversation_history
      = (startConsultation initialState "t0").conversation_history ++
        [{ ttype := "user", message := "hi", timestamp := some "t1" },
         { ttype := "bot", message := apology_message, timestamp := some "t2" }]
    ∧ (interviewStep (startConsultation initialState "t0") "hi"
        (fun _ _ => none) "t1" "t2").consultation_active = true
    ∧ (interviewStep (startConsultation initialState "t0") "hi"
        (fun _ _ => none) "t1" "t2").assessment_ready = false :=
  C3_gateway_failure_absorbed (startConsultation initialState "t0") "hi"
    (fun _ _ => none) "t1" "t2" rfl rfl rfl

/-- The 10-turn window over a history ending in a given turn still ends in
that turn. -/
theorem lastN_append_last (h : List Turn) (x : Turn) :
    ∃ ys, lastN 10 (h ++ [x]) = ys ++ [x] := by
  refine ⟨h.drop ((h.length + 1) - 10), ?_⟩
  unfold lastN
  have hlen : (h ++ [x]).length = h.length + 1 := by simp
  rw [hlen]
  exact List.drop_append_of_le_length (by omega)

/-- **C9.** For every user message submitted during an active interview,
the message sequence sent to the LLM Gateway is exactly: the fixed system
prompt, then the most recent 10 turns of the conversation history as
recorded after the new user turn has been appended, then the new user
message appended once more — so the new user message always reaches the
Gateway twice in a row. -/
theorem C9_gateway_window :
    ∀ (s : SessionState) (u tu : String),
      (get_llm_response_messages (s.conversation_history ++
          [{ ttype := "user", message := u, timestamp := some tu }]) u
        = { role := "system", content := system_prompt } ::
          ((lastN 10 (s.conversation_history ++
              [{ ttype := "user", message := u, timestamp := some tu }])).map
            (fun e => { role := turnRole e, content := e.message }) ++
           [{ role := "user", content := u }]))
      ∧ (∀ gw : List ApiMessage → Nat → Option String,
          get_llm_response gw (s.conversation_history ++
              [{ ttype := "user", message := u, timestamp := some tu }]) u
            = gw ({ role := "system", content := system_prompt } ::
                ((lastN 10 (s.conversation_history ++
                    [{ ttype := "user", message := u, timestamp := some tu }])).map
                  (fun e => { role := turnRole e, content := e.message }) ++
                 [{ role := "user", content := u }])) 500)
      ∧ (∃ pre : List ApiMessage,
          get_llm_response_messages (s.conversation_history ++
              [{ ttype := "user", message := u, timestamp := some tu }]) u
            = pre ++ [{ role := "user", content := u },
                      { role := "user", content := u }]) := by
  intro s u tu
  have h1 : get_llm_response_messages (s.conversation_history ++
      [{ ttype := "user", message := u, timestamp := some tu }]) u
      = { role := "system", content := system_prompt } ::
        ((lastN 10 (s.conversation_history ++
            [{ ttype := "user", message := u, timestamp := some tu }])).map
          (fun e => { role := turnRole e, content := e.message }) ++
         [{ role := "user", content := u }]) := by
    simp [get_llm_response_messages]
  refine ⟨h1, fun gw => by rw [get_llm_response, h1], ?_⟩
  obtain ⟨ys, hys⟩ := lastN_append_last s.conversation_history
    { ttype := "user", message := u, timestamp := some tu }
  refine ⟨{ role := "system", content := system_prompt } ::
    ys.map (fun e => { role := turnRole e, content := e.message }), ?_⟩
  rw [h1, hys]
  simp [turnRole]

/-- Each run step appends the user turn and one assistant turn, preserving
order — stated as length, speaker pattern and user-message statistics. -/
theorem runSubmissions_history_stats :
    ∀ (subs : List Submission) (s : SessionState),
      ((runSubmissions s subs).conversation_history.length
          = s.conversation_history.length + 2 * subs.length)
      ∧ ((runSubmissions s subs).conversation_history.map Turn.ttype
          = s.conversation_history.map Turn.ttype ++
            (subs.map (fun _ => ["user", "bot"])).flatten)
      ∧ (((runSubmissions s subs).conversation_history.filter
            (fun t => t.ttype == "user")).map Turn.message
          = ((s.conversation_history.filter
              (fun t => t.ttype == "user")).map Turn.message)
            ++ subs.map Submission.user_input) := by
  intro subs
  induction subs with
  | nil => intro s; simp [runSubmissions]
  | cons sub rest ih =>
    intro s
    obtain ⟨m, hm⟩ := interviewStep_history_shape s sub.user_input sub.gw
      sub.tsUser sub.tsBot
    have hrun : runSubmissions s (sub :: rest)
        = runSubmissions (interviewStep s sub.user_input sub.gw sub.tsUser sub.tsBot)
            rest := rfl
    obtain ⟨ih1, ih2, ih3⟩ := ih (interviewStep s sub.user_input sub.gw sub.tsUser sub.tsBot)
    refine ⟨?_, ?_, ?_⟩
    · rw [hrun, ih1, hm]
      simp
      omega
    · rw [hrun, ih2, hm]
      simp
    · rw [hrun, ih3, hm]
      simp [List.filter_append]

/-- **C5.** After a started session and any sequence of N user submissions
(each Gateway call succeeding or failing), the conversation history has
length 2N+1: the opening assistant turn, then for each submission exactly
one user turn followed by exactly one assistant turn, with the submitted
messages appearing in submission order. -/
theorem C5_transcript_growth :
    ∀ (subs : List Submission) (ts : String),
      ((runSubmissions (startConsultation initialState ts) subs).conversation_history.length
          = 2 * subs.length + 1)
      ∧ ((runSubmissions (startConsultation initialState ts) subs).conversation_history.map
            Turn.ttype
          = "bot" :: (subs.map (fun _ => ["user", "bot"])).flatten)
      ∧ (((runSubmissions (startConsultation initialState ts) subs).conversation_history.filter
            (fun t => t.ttype == "user")).map Turn.message
          = subs.map Submission.user_input) := by
  intro subs ts
  obtain ⟨h1, h2, h3⟩ := runSubmissions_history_stats subs (startConsultation initialState ts)
  refine ⟨?_, ?_, ?_⟩
  · rw [h1]
    simp [startConsultation, initialState]
    omega
  · rw [h2]
    simp [startConsultation, initialState]
  · rw [h3]
    simp [startConsultation, initialState]

end MedChatbot
